import Mathlib

/-!
Verification of the StegoPro web client (`src/pres.js`, class `StegoProApp`).

The development shallowly embeds the operation-lifecycle core of the client:
the base64 codec used for transport (`fileToBase64`, `base64ToBlob`), the
object-URL resource tracker, the quota gate and anonymous-operation counter,
the stats ledger and achievement evaluation, and the hide/extract operation
drivers (`startHiding`, `startExtracting`, `hideData`, `extractData`,
`cancelOperation`, `logoutGoogle`).  DOM rendering, CSS classes and animation
calls have no bearing on the verified properties and are not modelled; every
state-bearing effect (stats, counters, tracked URLs, toasts, controllers) is.
Network exchanges are modelled by an explicit `FetchOutcome` environment value
describing how the `fetch` call settled.
-/

namespace StegoPro

/-! ## Base64 codec

`fileToBase64` (pres.js:1143) delegates to the browser's `FileReader.readAsDataURL`,
whose payload after the comma is RFC 4648 base64 of the file bytes; `base64ToBlob`
(pres.js:1332) delegates to the browser's `atob` (WHATWG forgiving-base64 decode).
Both builtins are modelled here on byte lists (each byte `< 256`) and char lists.
-/

def base64Alphabet : List Char :=
  "ABCDEFGHIJKLMNOPQRSTUVWXYZabcdefghijklmnopqrstuvwxyz0123456789+/".toList

/-- The character the base64 encoder emits for a sextet `n < 64`. -/
def sextetToChar (n : Nat) : Char :=
  base64Alphabet.getD n 'A'

/-- The sextet a base64 alphabet character denotes; `none` off the alphabet
(`=` included). -/
def charToSextet (c : Char) : Option Nat :=
  base64Alphabet.findIdx? (fun d => d == c)

/-- Byte-level base64 encoding, three input bytes to four output characters,
with `=` padding, as `readAsDataURL` produces it. -/
def base64EncodeBytes : List Nat → List Char
  | [] => []
  | [a] => [sextetToChar (a / 4), sextetToChar (a % 4 * 16), '=', '=']
  | [a, b] => [sextetToChar (a / 4), sextetToChar (a % 4 * 16 + b / 16),
      sextetToChar (b % 16 * 4), '=']
  | a :: b :: c :: rest =>
    sextetToChar (a / 4) :: sextetToChar (a % 4 * 16 + b / 16) ::
      sextetToChar (b % 16 * 4 + c / 64) :: sextetToChar (c % 64) ::
      base64EncodeBytes rest

/-- One byte recovered from a final two-character base64 group. -/
def decodeBytes1 (s1 s2 : Nat) : List Nat :=
  [s1 * 4 + s2 / 16]

/-- Two bytes recovered from a final three-character base64 group. -/
def decodeBytes2 (s1 s2 s3 : Nat) : List Nat :=
  [s1 * 4 + s2 / 16, s2 % 16 * 16 + s3 / 4]

/-- Three bytes recovered from a full four-character base64 group. -/
def decodeBytes3 (s1 s2 s3 s4 : Nat) : List Nat :=
  [s1 * 4 + s2 / 16, s2 % 16 * 16 + s3 / 4, s3 % 4 * 64 + s4]

/-- The browser's `atob` (WHATWG forgiving-base64 decode): groups of four
characters yield three bytes; a final group of two or three characters —
padded with `=` or not — yields one or two bytes; anything else (length
`≡ 1 mod 4`, a non-alphabet character, `=` before the final group) throws,
modelled as `none`. -/
def atobDecode : List Char → Option (List Nat)
  | [] => some []
  | [_] => none
  | [c1, c2] =>
    match charToSextet c1, charToSextet c2 with
    | some s1, some s2 => some (decodeBytes1 s1 s2)
    | _, _ => none
  | [c1, c2, c3] =>
    match charToSextet c1, charToSextet c2, charToSextet c3 with
    | some s1, some s2, some s3 => some (decodeBytes2 s1 s2 s3)
    | _, _, _ => none
  | [c1, c2, c3, c4] =>
    if c4 = '=' then
      if c3 = '=' then
        match charToSextet c1, charToSextet c2 with
        | some s1, some s2 => some (decodeBytes1 s1 s2)
        | _, _ => none
      else
        match charToSextet c1, charToSextet c2, charToSextet c3 with
        | some s1, some s2, some s3 => some (decodeBytes2 s1 s2 s3)
        | _, _, _ => none
    else
      match charToSextet c1, charToSextet c2, charToSextet c3, charToSextet c4 with
      | some s1, some s2, some s3, some s4 => some (decodeBytes3 s1 s2 s3 s4)
      | _, _, _, _ => none
  | c1 :: c2 :: c3 :: c4 :: c5 :: rest =>
    match charToSextet c1, charToSextet c2, charToSextet c3, charToSextet c4 with
    | some s1, some s2, some s3, some s4 =>
      (atobDecode (c5 :: rest)).map (fun bs => decodeBytes3 s1 s2 s3 s4 ++ bs)
    | _, _, _, _ => none

/-- A file as the client sees it: a name and its raw bytes. -/
structure JsFile where
  name : String
  data : List Nat
deriving DecidableEq, Repr

/-- Embeds `fileToBase64` (pres.js:1143): `readAsDataURL` then
`reader.result.split(',')[1]`, i.e. the base64 text of the file bytes. -/
def fileToBase64 (file : JsFile) : String :=
  String.mk (base64EncodeBytes file.data)

/-- Embeds `fileToBase64Chunked` (pres.js:1153): despite the name, both the
small-file branch and the large-file branch read the whole file with
`readAsDataURL` and return the same base64 text. -/
def fileToBase64Chunked (file : JsFile) : String :=
  if file.data.length < 1024 * 1024 then fileToBase64 file else fileToBase64 file

/-- A `Blob`: the bytes it holds and its MIME type. -/
structure Blob where
  data : List Nat
  type : String
deriving DecidableEq, Repr

/-- The slicing loop of `base64ToBlob` (pres.js:1339): the decoded byte string
cut into chunks of 8192, each turned into a byte array. -/
def blobChunks : List Nat → List (List Nat)
  | [] => []
  | b :: rest => ((b :: rest).take 8192) :: blobChunks ((b :: rest).drop 8192)
termination_by l => l.length
decreasing_by simp [List.length_drop]; omega

/-- Embeds `base64ToBlob` (pres.js:1332): `atob`, then 8192-character slices
of the decoded string turned into byte arrays and concatenated into a `Blob`;
`none` where the JS code throws its wrapped decode error. -/
def base64ToBlob (base64 : String) (mimeType : String) : Option Blob :=
  (atobDecode base64.data).map fun bytes =>
    { data := (blobChunks bytes).flatten, type := mimeType }

theorem charToSextet_sextetToChar : ∀ n < 64, charToSextet (sextetToChar n) = some n := by
  decide

theorem sextetToChar_ne_eq : ∀ n < 64, sextetToChar n ≠ '=' := by
  decide

theorem base64EncodeBytes_ne_nil (a : Nat) (l : List Nat) :
    base64EncodeBytes (a :: l) ≠ [] := by
  match l with
  | [] => simp [base64EncodeBytes]
  | [b] => simp [base64EncodeBytes]
  | b :: c :: rest => simp [base64EncodeBytes]

theorem atobDecode_encode (x : List Nat) (hx : ∀ b ∈ x, b < 256) :
    atobDecode (base64EncodeBytes x) = some x := by
  match x with
  | [] => rfl
  | [a] =>
    have ha : a < 256 := hx a (by simp)
    have h1 := charToSextet_sextetToChar (a / 4) (by omega)
    have h2 := charToSextet_sextetToChar (a % 4 * 16) (by omega)
    simp only [base64EncodeBytes, atobDecode, if_true, h1, h2, decodeBytes1,
      Option.some.injEq, List.cons.injEq, and_true]
    omega
  | [a, b] =>
    have ha : a < 256 := hx a (by simp)
    have hb : b < 256 := hx b (by simp)
    have h1 := charToSextet_sextetToChar (a / 4) (by omega)
    have h2 := charToSextet_sextetToChar (a % 4 * 16 + b / 16) (by omega)
    have h3 := charToSextet_sextetToChar (b % 16 * 4) (by omega)
    have hne := sextetToChar_ne_eq (b % 16 * 4) (by omega)
    simp only [base64EncodeBytes, atobDecode, if_true, if_neg hne, h1, h2, h3,
      decodeBytes2, Option.some.injEq, List.cons.injEq, and_true]
    omega
  | a :: b :: c :: rest =>
    have ha : a < 256 := hx a (by simp)
    have hb : b < 256 := hx b (by simp)
    have hc : c < 256 := hx c (by simp)
    have hrest : ∀ y ∈ rest, y < 256 := fun y hy => hx y (by simp [hy])
    have ih := atobDecode_encode rest hrest
    have h1 := charToSextet_sextetToChar (a / 4) (by omega)
    have h2 := charToSextet_sextetToChar (a % 4 * 16 + b / 16) (by omega)
    have h3 := charToSextet_sextetToChar (b % 16 * 4 + c / 64) (by omega)
    have h4 := charToSextet_sextetToChar (c % 64) (by omega)
    match rest with
    | [] =>
      have hne := sextetToChar_ne_eq (c % 64) (by omega)
      simp only [base64EncodeBytes, atobDecode, if_neg hne, h1, h2, h3, h4,
        decodeBytes3, Option.some.injEq, List.cons.injEq, and_true]
      omega
    | r :: rest' =>
      obtain ⟨y, ys, hy⟩ : ∃ y ys, base64EncodeBytes (r :: rest') = y :: ys := by
        cases h : base64EncodeBytes (r :: rest') with
        | nil => exact absurd h (base64EncodeBytes_ne_nil r rest')
        | cons y ys => exact ⟨y, ys, rfl⟩
      simp only [base64EncodeBytes, hy, atobDecode, h1, h2, h3, h4]
      rw [← hy, ih]
      simp only [Option.map_some', Option.some.injEq, decodeBytes3,
        List.cons_append, List.nil_append, List.cons.injEq, and_true]
      omega
termination_by x.length

theorem blobChunks_flatten (bytes : List Nat) : (blobChunks bytes).flatten = bytes := by
  match bytes with
  | [] => rw [blobChunks]; rfl
  | b :: rest =>
    rw [blobChunks]
    simp only [List.flatten_cons]
    rw [blobChunks_flatten ((b :: rest).drop 8192)]
    exact List.take_append_drop 8192 (b :: rest)
termination_by bytes.length
decreasing_by simp [List.length_drop]; omega

/-- C1: for every binary payload `x` with `0 < |x| ≤ 50 MiB`, decoding the
text produced by encoding `x` yields `x` back byte-for-byte:
`base64ToBlob (fileToBase64 x)` recovers exactly the bytes of `x`, with no
byte truncated or reordered. -/
theorem C1_base64_roundtrip (x : JsFile) (hbytes : ∀ b ∈ x.data, b < 256)
    (hpos : 0 < x.data.length) (hcap : x.data.length ≤ 50 * 1024 * 1024) :
    base64ToBlob (fileToBase64 x) "application/octet-stream" =
      some { data := x.data, type := "application/octet-stream" } := by
  show (atobDecode (base64EncodeBytes x.data)).map _ = _
  rw [atobDecode_encode x.data hbytes]
  simp [blobChunks_flatten]

/-- C1 witness: the round trip evaluated on the concrete three-byte payload
`[77, 97, 110]`. -/
theorem C1_base64_roundtrip_witness :
    base64ToBlob (fileToBase64 ⟨"m.bin", [77, 97, 110]⟩) "application/octet-stream" =
      some { data := [77, 97, 110], type := "application/octet-stream" } :=
  C1_base64_roundtrip ⟨"m.bin", [77, 97, 110]⟩ (by decide) (by decide) (by decide)

/-! ## Application state

`StegoProApp` holds its mutable state in instance fields (pres.js:543-556).
`isUserLoggedIn` (pres.js:571) reads the nav-avatar visibility, modelled as the
boolean `loggedIn`; `localStorage` reads/writes only mirror the fields already
modelled and are not duplicated.  Toasts record every `showToast` call; the
login-prompt modal of `showLoginPrompt` (pres.js:1651) is a flag.
`AbortController` instances are numbered by a freshness counter, and
`abortedControllers` records every id whose `abort()` ran.  Object URLs from
`URL.createObjectURL` are strings numbered by a second freshness counter;
`objectURLs` is the tracked `Set` (insertion order, no duplicates). -/

/-- The stats ledger (pres.js:1631): `stegopro_stats` fields. -/
structure Stats where
  filesProcessed : Nat
  dataHidden : Nat
  successfulOperations : Nat
deriving DecidableEq, Repr

/-- An unlocked achievement entry as pushed by `checkAchievements`. -/
structure Achievement where
  id : String
  name : String
  description : String
deriving DecidableEq, Repr

/-- The kind argument of `showToast` (pres.js:1592). -/
inductive ToastType
  | success
  | error
  | warning
deriving DecidableEq, Repr

/-- One `showToast` call: title, message, type. -/
structure Toast where
  title : String
  message : String
  type : ToastType
deriving DecidableEq, Repr

/-- The instance fields of `StegoProApp` (pres.js:543-556) that carry state,
plus the observation log (toasts, login prompt, aborted controllers) and two
freshness counters for `new AbortController()` and `URL.createObjectURL`. -/
structure AppState where
  currentMethod : Option String
  containerFile : Option JsFile
  dataFile : Option JsFile
  extractFile : Option JsFile
  stats : Stats
  achievements : List Achievement
  currentOperationController : Option Nat
  anonOperationCount : Nat
  objectURLs : List String
  loggedIn : Bool
  toasts : List Toast
  loginPromptShown : Bool
  abortedControllers : List Nat
  nextControllerId : Nat
  nextUrlId : Nat
deriving DecidableEq, Repr

/-- Embeds `showToast` (pres.js:1592): appends one toast to the log. -/
def showToast (s : AppState) (title message : String) (ty : ToastType) : AppState :=
  { s with toasts := s.toasts ++ [⟨title, message, ty⟩] }

/-- Embeds `hasAchievement` (pres.js:1586). -/
def hasAchievement (s : AppState) (id : String) : Bool :=
  s.achievements.any fun a => a.id == id

/-! ## Resource tracker (object URLs) -/

/-- Embeds `createTrackedObjectURL` (pres.js:672): `URL.createObjectURL`
yields a fresh URL, added to the tracked `Set` (a `Set.add` inserts only if
absent), and the URL is returned. -/
def createTrackedObjectURL (s : AppState) : AppState × String :=
  let url := "blob:" ++ toString s.nextUrlId
  ({ s with
      objectURLs := if url ∈ s.objectURLs then s.objectURLs else s.objectURLs ++ [url],
      nextUrlId := s.nextUrlId + 1 },
   url)

/-- Embeds `revokeTrackedObjectURL` (pres.js:679): revoke and delete only if
the URL is tracked; otherwise nothing happens and no error is raised. -/
def revokeTrackedObjectURL (s : AppState) (url : String) : AppState :=
  if url ∈ s.objectURLs then { s with objectURLs := s.objectURLs.erase url } else s

/-- Embeds `cleanupObjectURLs` (pres.js:660): every tracked URL is revoked
(failures swallowed by the inner try/catch) and the set is cleared. -/
def cleanupObjectURLs (s : AppState) : AppState :=
  { s with objectURLs := [] }

/-! ## Stats ledger and achievements -/

/-- The operation strings passed to `updateStatsAfterOperation`. -/
inductive OpKind
  | hide
  | extract
deriving DecidableEq, Repr

/-- Embeds `updateStatsAfterOperation` (pres.js:1513): `filesProcessed`
always increments; `hide` also adds the payload size to `dataHidden`; both
kinds increment `successfulOperations`.  `saveStats`/`saveStatsToCloud`
persist the very same fields and are not duplicated. -/
def updateStatsAfterOperation (s : AppState) (operation : OpKind) (dataSize : Nat) : AppState :=
  let st1 := { s.stats with filesProcessed := s.stats.filesProcessed + 1 }
  let st2 :=
    match operation with
    | .hide =>
      { st1 with dataHidden := st1.dataHidden + dataSize,
                 successfulOperations := st1.successfulOperations + 1 }
    | .extract => { st1 with successfulOperations := st1.successfulOperations + 1 }
  { s with stats := st2 }

/-- One iteration of the `newAchievements.forEach` loop in `checkAchievements`
(pres.js:1577): push the achievement, then `showAchievement` toasts it. -/
def pushAchievement (s : AppState) (a : Achievement) : AppState :=
  showToast { s with achievements := s.achievements ++ [a] }
    "Достижение разблокировано!" (a.name ++ ": " ++ a.description) .success

/-- The `newAchievements` list that `checkAchievements` (pres.js:1525)
accumulates, in source order, against the stats and unlocked set at entry. -/
def newAchievementsFor (s : AppState) : List Achievement :=
  (if s.stats.filesProcessed == 1 && !hasAchievement s "first_file" then
    [⟨"first_file", "Первый шаг", "Обработан первый файл"⟩] else []) ++
  (if s.stats.dataHidden ≥ 1024 * 1024 && !hasAchievement s "data_hider" then
    [⟨"data_hider", "Скрыватель данных", "Скрыто более 1MB данных"⟩] else []) ++
  (if s.stats.filesProcessed ≥ 10 && !hasAchievement s "pro_user" then
    [⟨"pro_user", "Профессиональный пользователь", "Обработано 10 файлов"⟩] else []) ++
  (if s.stats.filesProcessed ≥ 20 && !hasAchievement s "master" then
    [⟨"master", "Мастер стеганографии", "Обработано 20+ файлов"⟩] else []) ++
  (if s.stats.dataHidden ≥ 10 * 1024 * 1024 && !hasAchievement s "megabyte_hider" then
    [⟨"megabyte_hider", "Мегабайтщик", "Скрыто более 10MB данных"⟩] else []) ++
  (if s.stats.successfulOperations ≥ 5 && !hasAchievement s "extractor" then
    [⟨"extractor", "Извлекатель", "Успешно извлечено 5 файлов"⟩] else []) ++
  (if s.stats.filesProcessed ≥ 10 &&
      s.stats.successfulOperations == s.stats.filesProcessed &&
      !hasAchievement s "perfectionist" then
    [⟨"perfectionist", "Перфекционист", "100% успешных операций (минимум 10)"⟩] else [])

/-- Embeds `checkAchievements` (pres.js:1525): the rules are evaluated against
the state at entry, then each new achievement is pushed and toasted in order
(`saveAchievements`/`saveStatsToCloud` persist, no further local effect). -/
def checkAchievements (s : AppState) : AppState :=
  (newAchievementsFor s).foldl pushAchievement s

/-- Embeds `logoutGoogle` (pres.js:814): `POST /api/logout` is fired (a purely
remote effect), stats and achievements are reset to zero and persisted, and a
success toast is shown.  The subsequent `loadGoogleUser` refresh is a further
network exchange whose DOM effect is not modelled here. -/
def logoutGoogle (s : AppState) : AppState :=
  showToast { s with stats := ⟨0, 0, 0⟩, achievements := [] }
    "Успешно" "Вы вышли из аккаунта" .success

/-! ## Operation lifecycle -/

/-- How the network exchange of one operation settles, as observed by the
`await fetch` inside `hideData`/`extractData`: the request was aborted through
the signal (the fetch promise rejects with a DOMException named `AbortError`
carrying a browser-chosen message), the fetch itself failed (`TypeError`), the
response arrived with a non-2xx status (`response.ok` false), or a JSON body
arrived with `success:false` or `success:true`. -/
inductive FetchOutcome (ρ : Type)
  | aborted (message : String)
  | networkFailure (message : String)
  | httpNotOk (status : Nat)
  | apiFailure (error : String)
  | apiSuccess (body : ρ)
deriving DecidableEq, Repr

/-- A JavaScript error value: its `name` and `message`. -/
structure JsError where
  name : String
  message : String
deriving DecidableEq, Repr

/-- The successful `/api/hide` response body (pres.js:1100-1109). -/
structure HideResponse where
  method : String
  stego_data : String
  file_extension : String
  original_size : Nat
  hidden_size : Nat
  stego_size : Nat
  original_filename : String
deriving DecidableEq, Repr

/-- The successful `/api/extract` response body (pres.js:1131-1138). -/
structure ExtractResponse where
  method : String
  extracted_data : String
  extracted_size : Nat
  original_filename : String
  file_extension : String
deriving DecidableEq, Repr

/-- The error the try block of `hideData`/`extractData` observes for each way
the exchange can settle (pres.js:1095-1099). -/
def fetchError {ρ : Type} (outcome : FetchOutcome ρ) : Option JsError :=
  match outcome with
  | .aborted msg => some ⟨"AbortError", msg⟩
  | .networkFailure msg => some ⟨"TypeError", msg⟩
  | .httpNotOk status => some ⟨"Error", "HTTP error! status: " ++ toString status⟩
  | .apiFailure err => some ⟨"Error", err⟩
  | .apiSuccess _ => none

/-- Embeds `hideData` (pres.js:1074): any rejection inside the try block —
the aborted fetch included — is caught and re-thrown as a fresh generic
`Error` (name `"Error"`) wrapping the message. -/
def hideData (outcome : FetchOutcome HideResponse) : Except JsError HideResponse :=
  match outcome with
  | .apiSuccess body => .ok body
  | o =>
    match fetchError o with
    | some e => .error ⟨"Error", "Ошибка при сокрытии данных: " ++ e.message⟩
    | none => .error ⟨"Error", "Ошибка при сокрытии данных: "⟩

/-- Embeds `extractData` (pres.js:1114): same wrapping as `hideData` with the
extraction message. -/
def extractData (outcome : FetchOutcome ExtractResponse) : Except JsError ExtractResponse :=
  match outcome with
  | .apiSuccess body => .ok body
  | o =>
    match fetchError o with
    | some e => .error ⟨"Error", "Ошибка при извлечении данных: " ++ e.message⟩
    | none => .error ⟨"Error", "Ошибка при извлечении данных: "⟩

/-- Embeds `getMimeType` (pres.js:1352). -/
def getMimeType (extension : String) : String :=
  let e := extension.toLower
  if e == "txt" then "text/plain"
  else if e == "pdf" then "application/pdf"
  else if e == "jpg" then "image/jpeg"
  else if e == "jpeg" then "image/jpeg"
  else if e == "png" then "image/png"
  else if e == "gif" then "image/gif"
  else if e == "bmp" then "image/bmp"
  else if e == "mp3" then "audio/mpeg"
  else if e == "wav" then "audio/wav"
  else if e == "mp4" then "video/mp4"
  else if e == "zip" then "application/zip"
  else if e == "doc" then "application/msword"
  else if e == "docx" then
    "application/vnd.openxmlformats-officedocument.wordprocessingml.document"
  else "application/octet-stream"

/-- Embeds the `hide` branch of `showResults` (pres.js:1220-1267): the stego
payload is decoded with `base64ToBlob` (a decode exception propagates to the
caller: `none`) and a tracked object URL is created for the download link.
Download-name assembly and HTML rendering touch no modelled state. -/
def showResultsHide (s : AppState) (result : HideResponse) : Option AppState :=
  match base64ToBlob result.stego_data "application/octet-stream" with
  | none => none
  | some _ => some (createTrackedObjectURL s).1

/-- Embeds the `extract` branch of `showResults` (pres.js:1268-1314): the file
extension defaults to `bin` unless the service supplied one (and no original
filename), the payload is decoded with `base64ToBlob` under `getMimeType`, and
a tracked object URL is created.  Download-name assembly is presentation only. -/
def showResultsExtract (s : AppState) (result : ExtractResponse) : Option AppState :=
  let fileExtension :=
    if result.original_filename == "" && result.file_extension != "" then
      result.file_extension
    else "bin"
  match base64ToBlob result.extracted_data (getMimeType fileExtension) with
  | none => none
  | some _ => some (createTrackedObjectURL s).1

/-- How a `startHiding`/`startExtracting` call leaves its synchronous prefix:
denied by the anonymous quota (login prompt, return), rejected for missing
files/method (error toast, return), or proceeding with a fresh controller. -/
inductive StartStatus
  | quotaDenied
  | invalidRequest
  | inFlight (controllerId : Nat)
deriving DecidableEq, Repr

/-- The anonymous-quota guard at the top of `startHiding` (pres.js:1003) and
`startExtracting` (pres.js:1039): deny exactly when not logged in and the
counter has reached the limit. -/
def anonQuotaDenied (loggedIn : Bool) (anonCount limit : Nat) : Bool :=
  !loggedIn && anonCount ≥ limit

/-- The fixed anonymous limit for hide operations (pres.js:1004). -/
def HIDE_LIMIT : Nat := 10

/-- The fixed anonymous limit for extract operations (pres.js:1040). -/
def EXTRACT_LIMIT : Nat := 2

/-- The usage gate as the spec states it: what a start call requires before
touching the network — authenticated sessions always pass, anonymous ones
pass while the counter is below the per-kind limit. -/
def usageGatePermits (loggedIn : Bool) (kind : OpKind) (anonCount : Nat) : Bool :=
  !anonQuotaDenied loggedIn anonCount
    (match kind with | .hide => HIDE_LIMIT | .extract => EXTRACT_LIMIT)

/-- Embeds the synchronous prefix of `startHiding` (pres.js:1002-1016): quota
gate, completeness check on container/data/method, then a fresh
`AbortController` stored in `currentOperationController` and the progress UI.
The password is read from the DOM and forwarded verbatim; it touches no
modelled state. -/
def startHidingSync (s : AppState) : StartStatus × AppState :=
  if anonQuotaDenied s.loggedIn s.anonOperationCount HIDE_LIMIT then
    (.quotaDenied, { s with loginPromptShown := true })
  else if s.containerFile.isNone || s.dataFile.isNone || s.currentMethod.isNone then
    (.invalidRequest, showToast s "Ошибка" "Не все необходимые файлы выбраны" .error)
  else
    (.inFlight s.nextControllerId,
     { s with currentOperationController := some s.nextControllerId,
              nextControllerId := s.nextControllerId + 1 })

/-- Embeds the synchronous prefix of `startExtracting` (pres.js:1038-1052). -/
def startExtractingSync (s : AppState) : StartStatus × AppState :=
  if anonQuotaDenied s.loggedIn s.anonOperationCount EXTRACT_LIMIT then
    (.quotaDenied, { s with loginPromptShown := true })
  else if s.extractFile.isNone then
    (.invalidRequest, showToast s "Ошибка" "Не выбран файл для извлечения" .error)
  else
    (.inFlight s.nextControllerId,
     { s with currentOperationController := some s.nextControllerId,
              nextControllerId := s.nextControllerId + 1 })

/-- `this.dataFile.size` at the success point of `startHiding` (pres.js:1021);
the `none` case cannot be reached past the completeness guard. -/
def optFileSize (f : Option JsFile) : Nat :=
  match f with
  | some file => file.data.length
  | none => 0

/-- Embeds the rest of `startHiding` (pres.js:1017-1035), given how the
exchange settled: on success, `showResults` (decode + tracked URL), then
`updateStatsAfterOperation('hide', dataFile.size)`, `checkAchievements`, and
the anonymous counter increment for guests; on a throw, the failure toast
unless the error's *name* is `AbortError` — but `hideData` has already
re-wrapped every error, abort included, under the name `Error`.  A decode
throw inside `showResults` reaches the same catch.  The `finally` clears
`currentOperationController`. -/
def finishHiding (s : AppState) (outcome : FetchOutcome HideResponse) : AppState :=
  let s' :=
    match hideData outcome with
    | .ok result =>
      match showResultsHide s result with
      | some s1 =>
        let s2 := updateStatsAfterOperation s1 .hide (optFileSize s.dataFile)
        let s3 := checkAchievements s2
        if !s3.loggedIn then
          { s3 with anonOperationCount := s3.anonOperationCount + 1 }
        else s3
      | none =>
        -- `base64ToBlob` threw: the browser's message suffix is elided
        showToast s "Ошибка"
          "Не удалось скрыть данные: Ошибка декодирования данных" .error
    | .error e =>
      if e.name != "AbortError" then
        showToast s "Ошибка" ("Не удалось скрыть данные: " ++ e.message) .error
      else s
  { s' with currentOperationController := none }

/-- Embeds the rest of `startExtracting` (pres.js:1053-1071), mirroring
`finishHiding` with `updateStatsAfterOperation('extract')` (size 0). -/
def finishExtracting (s : AppState) (outcome : FetchOutcome ExtractResponse) : AppState :=
  let s' :=
    match extractData outcome with
    | .ok result =>
      match showResultsExtract s result with
      | some s1 =>
        let s2 := updateStatsAfterOperation s1 .extract 0
        let s3 := checkAchievements s2
        if !s3.loggedIn then
          { s3 with anonOperationCount := s3.anonOperationCount + 1 }
        else s3
      | none =>
        showToast s "Ошибка"
          "Не удалось извлечь данные: Ошибка декодирования данных" .error
    | .error e =>
      if e.name != "AbortError" then
        showToast s "Ошибка" ("Не удалось извлечь данные: " ++ e.message) .error
      else s
  { s' with currentOperationController := none }

/-- One whole `startHiding` run (pres.js:1002), with the exchange's settling
supplied as an environment value.  A run that never reaches the network (quota
denial, incomplete request) ends at its synchronous prefix. -/
def startHiding (s : AppState) (outcome : FetchOutcome HideResponse) : AppState :=
  match startHidingSync s with
  | (.inFlight _, s') => finishHiding s' outcome
  | (_, s') => s'

/-- One whole `startExtracting` run (pres.js:1038). -/
def startExtracting (s : AppState) (outcome : FetchOutcome ExtractResponse) : AppState :=
  match startExtractingSync s with
  | (.inFlight _, s') => finishExtracting s' outcome
  | (_, s') => s'

/-- Embeds `cancelOperation` (pres.js:978): abort the stored controller if
any, clear the selected files, return to method selection and empty the
results pane.  Tracked object URLs are not revoked here. -/
def cancelOperation (s : AppState) : AppState :=
  let s1 :=
    match s.currentOperationController with
    | some id => { s with abortedControllers := id :: s.abortedControllers }
    | none => s
  { s1 with currentOperationController := none,
            containerFile := none, dataFile := none, extractFile := none }

/-! ## Preservation lemmas -/

theorem foldl_pushAchievement_preserves (l : List Achievement) (s : AppState) :
    (l.foldl pushAchievement s).stats = s.stats ∧
    (l.foldl pushAchievement s).anonOperationCount = s.anonOperationCount ∧
    (l.foldl pushAchievement s).loggedIn = s.loggedIn ∧
    (l.foldl pushAchievement s).objectURLs = s.objectURLs ∧
    (l.foldl pushAchievement s).currentOperationController = s.currentOperationController := by
  induction l generalizing s with
  | nil => exact ⟨rfl, rfl, rfl, rfl, rfl⟩
  | cons a t ih =>
    rw [List.foldl_cons]
    have h := ih (pushAchievement s a)
    simpa [pushAchievement, showToast] using h

@[simp] theorem checkAchievements_stats (s : AppState) :
    (checkAchievements s).stats = s.stats :=
  (foldl_pushAchievement_preserves _ _).1

@[simp] theorem checkAchievements_anonCount (s : AppState) :
    (checkAchievements s).anonOperationCount = s.anonOperationCount :=
  (foldl_pushAchievement_preserves _ _).2.1

@[simp] theorem checkAchievements_loggedIn (s : AppState) :
    (checkAchievements s).loggedIn = s.loggedIn :=
  (foldl_pushAchievement_preserves _ _).2.2.1

@[simp] theorem checkAchievements_objectURLs (s : AppState) :
    (checkAchievements s).objectURLs = s.objectURLs :=
  (foldl_pushAchievement_preserves _ _).2.2.2.1

@[simp] theorem updateStats_anonCount (s : AppState) (k : OpKind) (n : Nat) :
    (updateStatsAfterOperation s k n).anonOperationCount = s.anonOperationCount := rfl

@[simp] theorem updateStats_loggedIn (s : AppState) (k : OpKind) (n : Nat) :
    (updateStatsAfterOperation s k n).loggedIn = s.loggedIn := rfl

@[simp] theorem updateStats_achievements (s : AppState) (k : OpKind) (n : Nat) :
    (updateStatsAfterOperation s k n).achievements = s.achievements := rfl

@[simp] theorem updateStats_objectURLs (s : AppState) (k : OpKind) (n : Nat) :
    (updateStatsAfterOperation s k n).objectURLs = s.objectURLs := rfl

theorem updateStats_filesProcessed (s : AppState) (k : OpKind) (n : Nat) :
    (updateStatsAfterOperation s k n).stats.filesProcessed =
      s.stats.filesProcessed + 1 := by
  cases k <;> rfl

@[simp] theorem createTrackedObjectURL_anonCount (s : AppState) :
    (createTrackedObjectURL s).1.anonOperationCount = s.anonOperationCount := rfl

@[simp] theorem createTrackedObjectURL_loggedIn (s : AppState) :
    (createTrackedObjectURL s).1.loggedIn = s.loggedIn := rfl

@[simp] theorem createTrackedObjectURL_stats (s : AppState) :
    (createTrackedObjectURL s).1.stats = s.stats := rfl

theorem foldl_pushAchievement_achievements (l : List Achievement) (s : AppState) :
    (l.foldl pushAchievement s).achievements = s.achievements ++ l := by
  induction l generalizing s with
  | nil => simp
  | cons a t ih =>
    rw [List.foldl_cons, ih (pushAchievement s a)]
    simp [pushAchievement, showToast]

theorem hasAchievement_checkAchievements (s : AppState) (id : String) :
    hasAchievement (checkAchievements s) id =
      (hasAchievement s id || (newAchievementsFor s).any fun a => a.id == id) := by
  unfold checkAchievements hasAchievement
  rw [foldl_pushAchievement_achievements]
  simp

theorem any_if_singleton (c : Bool) (a : Achievement) (p : Achievement → Bool) :
    (if c then [a] else []).any p = (c && p a) := by
  cases c <;> simp

theorem newAchievementsFor_first_file (s : AppState) :
    ((newAchievementsFor s).any fun a => a.id == "first_file") =
      (s.stats.filesProcessed == 1 && !hasAchievement s "first_file") := by
  unfold newAchievementsFor
  simp only [List.any_append, any_if_singleton]
  simp

theorem checkAchievements_first_file (s : AppState)
    (h : s.stats.filesProcessed ≠ 1) :
    hasAchievement (checkAchievements s) "first_file" =
      hasAchievement s "first_file" := by
  rw [hasAchievement_checkAchievements, newAchievementsFor_first_file]
  have hb : (s.stats.filesProcessed == 1) = false := by simpa using h
  simp [hb]

/-! ## Outcome classification -/

/-- Whether a start call got past its synchronous prefix into the network. -/
def startProceeds (st : StartStatus) : Bool :=
  match st with
  | .inFlight _ => true
  | _ => false

/-- A hide run succeeds exactly when the service answered `success:true` and
the returned stego payload decodes. -/
def hideSucceeds (outcome : FetchOutcome HideResponse) : Bool :=
  match outcome with
  | .apiSuccess body => (atobDecode body.stego_data.data).isSome
  | _ => false

/-- An extract run succeeds exactly when the service answered `success:true`
and the returned payload decodes. -/
def extractSucceeds (outcome : FetchOutcome ExtractResponse) : Bool :=
  match outcome with
  | .apiSuccess body => (atobDecode body.extracted_data.data).isSome
  | _ => false

theorem finishHiding_fields (s : AppState) (o : FetchOutcome HideResponse) :
    (finishHiding s o).anonOperationCount =
      (if hideSucceeds o && !s.loggedIn then s.anonOperationCount + 1
       else s.anonOperationCount) ∧
    (finishHiding s o).stats =
      (if hideSucceeds o then
        ⟨s.stats.filesProcessed + 1, s.stats.dataHidden + optFileSize s.dataFile,
          s.stats.successfulOperations + 1⟩
       else s.stats) ∧
    (finishHiding s o).currentOperationController = none := by
  cases o with
  | apiSuccess body =>
    cases hdec : atobDecode body.stego_data.data with
    | none =>
      refine ⟨?_, ?_, rfl⟩ <;>
        simp [finishHiding, hideData, showResultsHide, base64ToBlob, hdec,
          hideSucceeds, showToast]
    | some bs =>
      have hli : (checkAchievements (updateStatsAfterOperation
          (createTrackedObjectURL s).1 OpKind.hide (optFileSize s.dataFile))).loggedIn
          = s.loggedIn := by simp
      refine ⟨?_, ?_, rfl⟩ <;>
      · simp only [finishHiding, hideData, showResultsHide, base64ToBlob, hdec,
          hideSucceeds, Option.map_some', Option.isSome_some, Bool.true_and, hli]
        split <;>
          simp_all [updateStatsAfterOperation, createTrackedObjectURL, Stats.mk.injEq]
  | aborted m =>
    refine ⟨?_, ?_, rfl⟩ <;>
      simp [finishHiding, hideData, fetchError, hideSucceeds, showToast]
  | networkFailure m =>
    refine ⟨?_, ?_, rfl⟩ <;>
      simp [finishHiding, hideData, fetchError, hideSucceeds, showToast]
  | httpNotOk n =>
    refine ⟨?_, ?_, rfl⟩ <;>
      simp [finishHiding, hideData, fetchError, hideSucceeds, showToast]
  | apiFailure e =>
    refine ⟨?_, ?_, rfl⟩ <;>
      simp [finishHiding, hideData, fetchError, hideSucceeds, showToast]

theorem finishExtracting_fields (s : AppState) (o : FetchOutcome ExtractResponse) :
    (finishExtracting s o).anonOperationCount =
      (if extractSucceeds o && !s.loggedIn then s.anonOperationCount + 1
       else s.anonOperationCount) ∧
    (finishExtracting s o).stats =
      (if extractSucceeds o then
        ⟨s.stats.filesProcessed + 1, s.stats.dataHidden,
          s.stats.successfulOperations + 1⟩
       else s.stats) ∧
    (finishExtracting s o).currentOperationController = none := by
  cases o with
  | apiSuccess body =>
    cases hdec : atobDecode body.extracted_data.data with
    | none =>
      refine ⟨?_, ?_, rfl⟩ <;>
        simp [finishExtracting, extractData, showResultsExtract, base64ToBlob, hdec,
          extractSucceeds, showToast]
    | some bs =>
      have hli : (checkAchievements (updateStatsAfterOperation
          (createTrackedObjectURL s).1 OpKind.extract 0)).loggedIn
          = s.loggedIn := by simp
      refine ⟨?_, ?_, rfl⟩ <;>
      · simp only [finishExtracting, extractData, showResultsExtract, base64ToBlob, hdec,
          extractSucceeds, Option.map_some', Option.isSome_some, Bool.true_and, hli]
        split <;>
          simp_all [updateStatsAfterOperation, createTrackedObjectURL, Stats.mk.injEq]
  | aborted m =>
    refine ⟨?_, ?_, rfl⟩ <;>
      simp [finishExtracting, extractData, fetchError, extractSucceeds, showToast]
  | networkFailure m =>
    refine ⟨?_, ?_, rfl⟩ <;>
      simp [finishExtracting, extractData, fetchError, extractSucceeds, showToast]
  | httpNotOk n =>
    refine ⟨?_, ?_, rfl⟩ <;>
      simp [finishExtracting, extractData, fetchError, extractSucceeds, showToast]
  | apiFailure e =>
    refine ⟨?_, ?_, rfl⟩ <;>
      simp [finishExtracting, extractData, fetchError, extractSucceeds, showToast]


theorem startHidingSync_cases (s : AppState) :
    startHidingSync s = (.quotaDenied, { s with loginPromptShown := true }) ∨
    startHidingSync s =
      (.invalidRequest, showToast s "Ошибка" "Не все необходимые файлы выбраны" .error) ∨
    startHidingSync s = (.inFlight s.nextControllerId,
      { s with currentOperationController := some s.nextControllerId,
               nextControllerId := s.nextControllerId + 1 }) := by
  unfold startHidingSync
  split
  · exact Or.inl rfl
  · split
    · exact Or.inr (Or.inl rfl)
    · exact Or.inr (Or.inr rfl)

theorem startExtractingSync_cases (s : AppState) :
    startExtractingSync s = (.quotaDenied, { s with loginPromptShown := true }) ∨
    startExtractingSync s =
      (.invalidRequest, showToast s "Ошибка" "Не выбран файл для извлечения" .error) ∨
    startExtractingSync s = (.inFlight s.nextControllerId,
      { s with currentOperationController := some s.nextControllerId,
               nextControllerId := s.nextControllerId + 1 }) := by
  unfold startExtractingSync
  split
  · exact Or.inl rfl
  · split
    · exact Or.inr (Or.inl rfl)
    · exact Or.inr (Or.inr rfl)

/-! ## Concrete states used as witnesses and counterexamples -/

/-- A ready-to-run anonymous session: both hide inputs and an extract input
selected, a method chosen, all counters zero, empty logs. -/
def demoState : AppState :=
  { currentMethod := some "lsb"
    containerFile := some ⟨"img.png", [1, 2, 3]⟩
    dataFile := some ⟨"s.txt", [4, 5]⟩
    extractFile := some ⟨"img2.png", [6]⟩
    stats := ⟨0, 0, 0⟩
    achievements := []
    currentOperationController := none
    anonOperationCount := 0
    objectURLs := []
    loggedIn := false
    toasts := []
    loginPromptShown := false
    abortedControllers := []
    nextControllerId := 0
    nextUrlId := 0 }

/-- `demoState` with controller 0 already stored as in flight. -/
def inFlightState : AppState :=
  { demoState with currentOperationController := some 0, nextControllerId := 1 }

/-- `demoState` with the anonymous counter at the hide limit. -/
def gatedState : AppState :=
  { demoState with anonOperationCount := 10 }

/-- `demoState` with nonzero stats. -/
def statsState : AppState :=
  { demoState with stats := ⟨3, 500, 3⟩ }

/-- `demoState` with stats as restored from storage: two files already
processed, no achievements unlocked. -/
def restoredState : AppState :=
  { demoState with stats := ⟨2, 0, 2⟩ }

/-- `demoState` with one tracked object URL. -/
def trackedState : AppState :=
  { demoState with objectURLs := ["blob:0"], nextUrlId := 1 }

/-! ## The claims -/

/-- C2: cancelling the in-flight hide operation — the network exchange settles
as `aborted` — does leave the stats, the anonymous counter and the tracked set
unchanged and clears the controller, but contrary to the claim the
operation-failed toast IS shown: `hideData` catches the `AbortError` and
re-throws a fresh generic `Error` (name `"Error"`), so the
`error.name !== 'AbortError'` guard in `startHiding`'s catch always passes. -/
theorem C2_cancel_shows_failure_toast :
    (startHiding demoState (.aborted "signal is aborted without reason")).stats
        = demoState.stats ∧
    (startHiding demoState (.aborted "signal is aborted without reason")).anonOperationCount
        = demoState.anonOperationCount ∧
    (startHiding demoState (.aborted "signal is aborted without reason")).objectURLs = [] ∧
    (startHiding demoState
        (.aborted "signal is aborted without reason")).currentOperationController = none ∧
    (startHiding demoState (.aborted "signal is aborted without reason")).toasts =
      [⟨"Ошибка",
        "Не удалось скрыть данные: Ошибка при сокрытии данных: signal is aborted without reason",
        .error⟩] := by
  refine ⟨rfl, rfl, rfl, rfl, rfl⟩

/-- C3 counterexample: calling `startHiding` while controller 0 is stored as
the in-flight operation proceeds with fresh controller 1 and never aborts
controller 0 — the previous handle is not forced to Cancelled and no cleanup
of it runs, contrary to the claim. -/
theorem C3_start_does_not_cancel_previous :
    inFlightState.currentOperationController = some 0 ∧
    (startHidingSync inFlightState).1 = .inFlight 1 ∧
    (startHidingSync inFlightState).2.abortedControllers = [] ∧
    (startHidingSync inFlightState).2.currentOperationController = some 1 := by
  refine ⟨rfl, rfl, rfl, rfl⟩

/-- C3 amended: a new `start` while an operation is in flight does not cancel
the previous handle; the synchronous prefix of `startHiding`/`startExtracting`
never aborts a controller and never touches the tracked resources — it simply
overwrites `currentOperationController` with the fresh controller when it
proceeds.  Only `cancelOperation` aborts the stored handle. -/
theorem C3_amended_start_replaces_without_abort (s : AppState) (k : Nat)
    (hk : s.currentOperationController = some k) :
    (startHidingSync s).2.abortedControllers = s.abortedControllers ∧
    (startHidingSync s).2.objectURLs = s.objectURLs ∧
    (startExtractingSync s).2.abortedControllers = s.abortedControllers ∧
    (startExtractingSync s).2.objectURLs = s.objectURLs ∧
    ((startHidingSync s).1 = .inFlight s.nextControllerId →
      (startHidingSync s).2.currentOperationController = some s.nextControllerId) ∧
    (cancelOperation s).abortedControllers = k :: s.abortedControllers := by
  refine ⟨?_, ?_, ?_, ?_, ?_, ?_⟩
  · unfold startHidingSync; split
    · rfl
    · split <;> simp [showToast]
  · unfold startHidingSync; split
    · rfl
    · split <;> simp [showToast]
  · unfold startExtractingSync; split
    · rfl
    · split <;> simp [showToast]
  · unfold startExtractingSync; split
    · rfl
    · split <;> simp [showToast]
  · unfold startHidingSync; split
    · intro h; simp at h
    · split
      · intro h; simp at h
      · intro _; rfl
  · simp [cancelOperation, hk]

/-- C3 amended witness: the property evaluated at `inFlightState`. -/
theorem C3_amended_witness :
    inFlightState.currentOperationController = some 0 ∧
    ((startHidingSync inFlightState).2.abortedControllers =
        inFlightState.abortedControllers ∧
      (startHidingSync inFlightState).2.objectURLs = inFlightState.objectURLs ∧
      (startExtractingSync inFlightState).2.abortedControllers =
        inFlightState.abortedControllers ∧
      (startExtractingSync inFlightState).2.objectURLs = inFlightState.objectURLs ∧
      ((startHidingSync inFlightState).1 = .inFlight inFlightState.nextControllerId →
        (startHidingSync inFlightState).2.currentOperationController =
          some inFlightState.nextControllerId) ∧
      (cancelOperation inFlightState).abortedControllers =
        0 :: inFlightState.abortedControllers) :=
  ⟨rfl, C3_amended_start_replaces_without_abort inFlightState 0 rfl⟩

/-- C4: the usage gate permits authenticated sessions unconditionally; an
anonymous session is permitted a hide exactly while the counter is below 10
and an extract exactly while below 2; the two limits are distinct constants;
and the gate predicate is exactly the quota-denial test at the top of
`startHiding` and `startExtracting`. -/
theorem C4_usage_gate (s : AppState) (n : Nat) :
    usageGatePermits true .hide n = true ∧
    usageGatePermits true .extract n = true ∧
    (usageGatePermits false .hide n = true ↔ n < HIDE_LIMIT) ∧
    (usageGatePermits false .extract n = true ↔ n < EXTRACT_LIMIT) ∧
    HIDE_LIMIT ≠ EXTRACT_LIMIT ∧
    ((startHidingSync s).1 = .quotaDenied ↔
      usageGatePermits s.loggedIn .hide s.anonOperationCount = false) ∧
    ((startExtractingSync s).1 = .quotaDenied ↔
      usageGatePermits s.loggedIn .extract s.anonOperationCount = false) := by
  refine ⟨rfl, rfl, ?_, ?_, by decide, ?_, ?_⟩
  · simp [usageGatePermits, anonQuotaDenied, HIDE_LIMIT]
  · simp [usageGatePermits, anonQuotaDenied, EXTRACT_LIMIT]
  · unfold startHidingSync
    split
    · next h => simp [usageGatePermits, h]
    · next h =>
      split <;> simp [usageGatePermits] <;> simpa using h
  · unfold startExtractingSync
    split
    · next h => simp [usageGatePermits, h]
    · next h =>
      split <;> simp [usageGatePermits] <;> simpa using h

/-- C4 witness: the gate evaluated at `demoState` and counter 3. -/
theorem C4_usage_gate_witness :
    (usageGatePermits false .hide 3 = true ↔ 3 < HIDE_LIMIT) ∧
    (usageGatePermits false .extract 3 = true ↔ 3 < EXTRACT_LIMIT) ∧
    ((startHidingSync demoState).1 = .quotaDenied ↔
      usageGatePermits demoState.loggedIn .hide demoState.anonOperationCount = false) :=
  ⟨(C4_usage_gate demoState 3).2.2.1, (C4_usage_gate demoState 3).2.2.2.1,
    (C4_usage_gate demoState 3).2.2.2.2.2.1⟩

/-- C5: when an anonymous session's counter has reached the limit of the
requested kind, the whole start call collapses to showing the login prompt —
the result does not depend on how any network exchange would settle (none is
issued), and stats, counter, tracked set and controller are untouched. -/
theorem C5_quota_denied_no_side_effects (s : AppState) :
    (∀ outcome : FetchOutcome HideResponse, s.loggedIn = false →
        HIDE_LIMIT ≤ s.anonOperationCount →
        startHiding s outcome = { s with loginPromptShown := true }) ∧
    (∀ outcome : FetchOutcome ExtractResponse, s.loggedIn = false →
        EXTRACT_LIMIT ≤ s.anonOperationCount →
        startExtracting s outcome = { s with loginPromptShown := true }) := by
  constructor
  · intro outcome hlog hcnt
    simp only [HIDE_LIMIT] at hcnt
    unfold startHiding startHidingSync
    rw [if_pos (by simp [anonQuotaDenied, hlog, HIDE_LIMIT]; omega)]
  · intro outcome hlog hcnt
    simp only [EXTRACT_LIMIT] at hcnt
    unfold startExtracting startExtractingSync
    rw [if_pos (by simp [anonQuotaDenied, hlog, EXTRACT_LIMIT]; omega)]

/-- C5 witness: denial at the hide limit, evaluated at `gatedState` with an
arbitrary settling. -/
theorem C5_quota_denied_witness :
    gatedState.loggedIn = false ∧ HIDE_LIMIT ≤ gatedState.anonOperationCount ∧
    startHiding gatedState (.aborted "never sent") =
      { gatedState with loginPromptShown := true } :=
  ⟨rfl, by decide,
    (C5_quota_denied_no_side_effects gatedState).1 (.aborted "never sent") rfl (by decide)⟩

/-- C6: the anonymous counter after a whole hide or extract run is incremented
exactly once when the run proceeded past the gate, the operation succeeded and
the session is anonymous, and is unchanged in every other case — failure,
cancellation, authenticated session, or denial before the network. -/
theorem C6_anon_counter (s : AppState) (oh : FetchOutcome HideResponse)
    (oe : FetchOutcome ExtractResponse) :
    (startHiding s oh).anonOperationCount =
      (if startProceeds (startHidingSync s).1 && hideSucceeds oh && !s.loggedIn
       then s.anonOperationCount + 1 else s.anonOperationCount) ∧
    (startExtracting s oe).anonOperationCount =
      (if startProceeds (startExtractingSync s).1 && extractSucceeds oe && !s.loggedIn
       then s.anonOperationCount + 1 else s.anonOperationCount) := by
  constructor
  · rcases startHidingSync_cases s with hp | hp | hp
    · simp [startHiding, hp, startProceeds]
    · simp [startHiding, hp, startProceeds, showToast]
    · have h := (finishHiding_fields
        { s with currentOperationController := some s.nextControllerId,
                 nextControllerId := s.nextControllerId + 1 } oh).1
      simp only [startHiding, hp, startProceeds, Bool.true_and]
      simpa using h
  · rcases startExtractingSync_cases s with hp | hp | hp
    · simp [startExtracting, hp, startProceeds]
    · simp [startExtracting, hp, startProceeds, showToast]
    · have h := (finishExtracting_fields
        { s with currentOperationController := some s.nextControllerId,
                 nextControllerId := s.nextControllerId + 1 } oe).1
      simp only [startExtracting, hp, startProceeds, Bool.true_and]
      simpa using h

/-- C7 counterexample: `logoutGoogle` resets the stats to zero, so with three
files processed it strictly decreases `filesProcessed` — the claim that no
operation of the program ever decreases a Stats field is false. -/
theorem C7_logout_decreases_stats :
    (logoutGoogle statsState).stats.filesProcessed <
      statsState.stats.filesProcessed ∧
    (logoutGoogle statsState).stats.dataHidden < statsState.stats.dataHidden ∧
    (logoutGoogle statsState).stats.successfulOperations <
      statsState.stats.successfulOperations := by
  refine ⟨by decide, by decide, by decide⟩

/-- Componentwise order on the stats ledger. -/
def statsLe (a b : Stats) : Prop :=
  a.filesProcessed ≤ b.filesProcessed ∧ a.dataHidden ≤ b.dataHidden ∧
    a.successfulOperations ≤ b.successfulOperations

/-- C7 amended: `updateStatsAfterOperation`, whole hide/extract runs,
`cancelOperation` and `checkAchievements` never decrease any Stats field, but
`logoutGoogle` resets all three fields to zero — a decrease whenever any was
positive.  Within a login period (no logout, no profile reload) the stats are
monotonically non-decreasing. -/
theorem C7_amended_stats_monotone (s : AppState) (op : OpKind) (n : Nat)
    (oh : FetchOutcome HideResponse) (oe : FetchOutcome ExtractResponse) :
    statsLe s.stats (updateStatsAfterOperation s op n).stats ∧
    statsLe s.stats (startHiding s oh).stats ∧
    statsLe s.stats (startExtracting s oe).stats ∧
    statsLe s.stats (cancelOperation s).stats ∧
    statsLe s.stats (checkAchievements s).stats ∧
    (logoutGoogle s).stats = ⟨0, 0, 0⟩ := by
  refine ⟨?_, ?_, ?_, ?_, ?_, rfl⟩
  · cases op <;> exact ⟨by simp [updateStatsAfterOperation],
      by simp [updateStatsAfterOperation], by simp [updateStatsAfterOperation]⟩
  · rcases startHidingSync_cases s with hp | hp | hp
    · simp only [startHiding, hp]
      exact ⟨le_refl _, le_refl _, le_refl _⟩
    · simp only [startHiding, hp, showToast]
      exact ⟨le_refl _, le_refl _, le_refl _⟩
    · have h := (finishHiding_fields
        { s with currentOperationController := some s.nextControllerId,
                 nextControllerId := s.nextControllerId + 1 } oh).2.1
      simp only [startHiding, hp]
      rw [statsLe, h]
      split <;> simp
  · rcases startExtractingSync_cases s with hp | hp | hp
    · simp only [startExtracting, hp]
      exact ⟨le_refl _, le_refl _, le_refl _⟩
    · simp only [startExtracting, hp, showToast]
      exact ⟨le_refl _, le_refl _, le_refl _⟩
    · have h := (finishExtracting_fields
        { s with currentOperationController := some s.nextControllerId,
                 nextControllerId := s.nextControllerId + 1 } oe).2.1
      simp only [startExtracting, hp]
      rw [statsLe, h]
      split <;> simp
  · unfold cancelOperation
    split <;> exact ⟨le_refl _, le_refl _, le_refl _⟩
  · simp [statsLe]

/-- C8: releasing tracked object URLs is idempotent and total — revoking an
unknown or already-revoked URL is a no-op that leaves the tracked set
unchanged (the JS function body raises nothing), and after `cleanupObjectURLs`
the tracked set is empty.  The `Nodup` hypothesis is the `Set` invariant the
tracker maintains (`createTrackedObjectURL` inserts only absent URLs). -/
theorem C8_revoke_idempotent (s : AppState) (url : String)
    (hnodup : s.objectURLs.Nodup) :
    (url ∉ s.objectURLs → revokeTrackedObjectURL s url = s) ∧
    revokeTrackedObjectURL (revokeTrackedObjectURL s url) url =
      revokeTrackedObjectURL s url ∧
    (cleanupObjectURLs s).objectURLs = [] ∧
    ((createTrackedObjectURL s).1.objectURLs).Nodup := by
  refine ⟨?_, ?_, rfl, ?_⟩
  · intro h
    simp [revokeTrackedObjectURL, h]
  · by_cases h : url ∈ s.objectURLs
    · have h2 : url ∉ s.objectURLs.erase url := hnodup.not_mem_erase
      simp [revokeTrackedObjectURL, h, h2]
    · simp [revokeTrackedObjectURL, h]
  · unfold createTrackedObjectURL
    dsimp only
    split
    · simpa using hnodup
    · next h => simpa [List.nodup_append] using ⟨hnodup, fun hmem => h (by simpa using hmem)⟩

/-- C8 witness: revocation behaviour evaluated on a tracker holding one URL. -/
theorem C8_revoke_idempotent_witness :
    trackedState.objectURLs.Nodup ∧
    ("blob:9" ∉ trackedState.objectURLs →
      revokeTrackedObjectURL trackedState "blob:9" = trackedState) ∧
    revokeTrackedObjectURL (revokeTrackedObjectURL trackedState "blob:0") "blob:0" =
      revokeTrackedObjectURL trackedState "blob:0" ∧
    (cleanupObjectURLs trackedState).objectURLs = [] :=
  ⟨by decide, (C8_revoke_idempotent trackedState "blob:9" (by decide)).1,
    (C8_revoke_idempotent trackedState "blob:0" (by decide)).2.1,
    (C8_revoke_idempotent trackedState "blob:0" (by decide)).2.2.1⟩

/-! ## Filename sanitisation -/

/-- The character class removed by the first `replace` of `sanitizeFilename`
(pres.js:1179): `<`, `>`, `:`, `"`, `|`, `?`, `*` and the C0 controls
`0x00`-`0x1F`.  The path separators (slash, backslash) and `0x7F` are not in the
class. -/
def isStrippedChar (c : Char) : Bool :=
  c == '<' || c == '>' || c == ':' || c == '"' || c == '|' || c == '?' || c == '*' ||
    c.toNat ≤ 0x1F

/-- The code points `String.prototype.trim` removes (ECMA-262 WhiteSpace and
LineTerminator). -/
def isJsWhitespace (c : Char) : Bool :=
  c.toNat == 0x9 || c.toNat == 0xA || c.toNat == 0xB || c.toNat == 0xC ||
  c.toNat == 0xD || c.toNat == 0x20 || c.toNat == 0xA0 || c.toNat == 0x1680 ||
  (0x2000 ≤ c.toNat && c.toNat ≤ 0x200A) || c.toNat == 0x2028 || c.toNat == 0x2029 ||
  c.toNat == 0x202F || c.toNat == 0x205F || c.toNat == 0x3000 || c.toNat == 0xFEFF

/-- `String.prototype.trim`: drop JS whitespace from both ends. -/
def jsTrim (l : List Char) : List Char :=
  ((l.dropWhile isJsWhitespace).reverse.dropWhile isJsWhitespace).reverse

/-- Embeds `sanitizeFilename` (pres.js:1175): remove the `[<>:"|?*\x00-\x1F]`
class, strip leading dots, truncate to 255 units, then trim.  A non-string or
empty input yields the empty string, which the pipeline also produces. -/
def sanitizeFilename (filename : String) : String :=
  String.mk (jsTrim (((filename.data.filter fun c => !isStrippedChar c).dropWhile
    fun c => c == '.').take 255))

theorem mem_of_mem_jsTrim {c : Char} {l : List Char} (h : c ∈ jsTrim l) : c ∈ l := by
  unfold jsTrim at h
  rw [List.mem_reverse] at h
  have h2 := (List.dropWhile_sublist isJsWhitespace).subset h
  rw [List.mem_reverse] at h2
  exact (List.dropWhile_sublist isJsWhitespace).subset h2

theorem length_jsTrim_le (l : List Char) : (jsTrim l).length ≤ l.length := by
  unfold jsTrim
  rw [List.length_reverse]
  calc ((l.dropWhile isJsWhitespace).reverse.dropWhile isJsWhitespace).length
      ≤ (l.dropWhile isJsWhitespace).reverse.length :=
        (List.dropWhile_sublist isJsWhitespace).length_le
    _ = (l.dropWhile isJsWhitespace).length := List.length_reverse _
    _ ≤ l.length := (List.dropWhile_sublist isJsWhitespace).length_le

/-- C9 counterexample: the sanitised name keeps the slash and the backslash —
the regex class removes `<>:"|?*` and C0 controls but no path separator, so
a name holding both separators passes through unchanged and the claim that
the sanitised name contains no path separator is false. -/
theorem C9_path_separator_survives :
    sanitizeFilename "dir/sub\\x.txt" = "dir/sub\\x.txt" ∧
    '/' ∈ (sanitizeFilename "dir/sub\\x.txt").data ∧
    '\\' ∈ (sanitizeFilename "dir/sub\\x.txt").data := by
  refine ⟨by decide, by decide, by decide⟩

/-- C9 amended: for every input the sanitised filename contains no character
of the removed class — so none of `<>:"|?*` and no C0 control character — and
is at most 255 characters long; path separators and `0x7F` are
preserved. -/
theorem C9_amended_sanitize (filename : String) :
    (∀ c ∈ (sanitizeFilename filename).data, isStrippedChar c = false) ∧
    (sanitizeFilename filename).data.length ≤ 255 := by
  constructor
  · intro c hc
    have hc2 : c ∈ jsTrim (((filename.data.filter fun c => !isStrippedChar c).dropWhile
        fun c => c == '.').take 255) := hc
    have h1 := mem_of_mem_jsTrim hc2
    have h2 := (List.take_sublist _ _).subset h1
    have h3 := (List.dropWhile_sublist _).subset h2
    have h4 := List.mem_filter.mp h3
    simpa using h4.2
  · have h1 : (sanitizeFilename filename).data.length =
        (jsTrim (((filename.data.filter fun c => !isStrippedChar c).dropWhile
          fun c => c == '.').take 255)).length := rfl
    rw [h1]
    calc (jsTrim (((filename.data.filter fun c => !isStrippedChar c).dropWhile
          fun c => c == '.').take 255)).length
        ≤ (((filename.data.filter fun c => !isStrippedChar c).dropWhile
          fun c => c == '.').take 255).length := length_jsTrim_le _
      _ ≤ 255 := List.length_take_le _ _


/-- C9 amended witness: the guarantee evaluated on a concrete name holding a
stripped character. -/
theorem C9_amended_witness :
    (∀ c ∈ (sanitizeFilename "a<b.txt").data, isStrippedChar c = false) ∧
    (sanitizeFilename "a<b.txt").data.length ≤ 255 :=
  C9_amended_sanitize "a<b.txt"

/-! ## Session traces for achievement evaluation -/

/-- The `/api/user` response as far as modelled state goes (pres.js:749-750):
whether the session is logged in, whether a picture URL is present (the nav
avatar — what `isUserLoggedIn` reads — is shown only then), and the stored
profile, when any: its stats together with its achievement list
(`user.stats.achievements || []` supplies `[]` when absent). -/
structure UserProfile where
  logged_in : Bool
  picture : Bool
  stats : Option (Stats × List Achievement)
deriving DecidableEq, Repr

/-- Embeds `loadGoogleUser` (pres.js:747): on a logged-in response the nav
avatar is shown exactly when a picture is present (so `isUserLoggedIn` follows
`user.picture`), a stored profile replaces `this.stats` and
`this.achievements` wholesale (pres.js:777-783), and the anonymous counter is
reset (pres.js:785); a logged-out response only hides the avatar, as does the
catch branch for a failed fetch. -/
def loadGoogleUser (s : AppState) (user : UserProfile) : AppState :=
  if user.logged_in then
    let s1 := { s with loggedIn := user.picture }
    let s2 :=
      match user.stats with
      | some (st, ach) => { s1 with stats := st, achievements := ach }
      | none => s1
    { s2 with anonOperationCount := 0 }
  else
    { s with loggedIn := false }

/-- The session-level actions that mutate stats or achievements: a bare
`checkAchievements` call (as at init, pres.js:561), a successful operation
(`updateStatsAfterOperation` then `checkAchievements`, pres.js:1021-1022 and
pres.js:1057-1058), `logoutGoogle`, and a `loadGoogleUser` refresh with some
`/api/user` response (run from init, `showProfile` and after logout). -/
inductive SessionOp
  | check
  | operate (kind : OpKind) (size : Nat)
  | logout
  | loadProfile (user : UserProfile)
deriving DecidableEq, Repr

/-- Run a list of session actions in order. -/
def runSession (s : AppState) : List SessionOp → AppState
  | [] => s
  | op :: rest =>
    runSession
      (match op with
       | .check => checkAchievements s
       | .operate k n => checkAchievements (updateStatsAfterOperation s k n)
       | .logout => logoutGoogle s
       | .loadProfile user => loadGoogleUser s user)
      rest

/-- Whether a session action can replace the stats and achievements wholesale
rather than only increment them: the logout reset, or a `loadGoogleUser`
refresh whose response is logged in and carries a stored profile. -/
def replacesStats : SessionOp → Bool
  | .logout => true
  | .loadProfile user => user.logged_in && user.stats.isSome
  | _ => false

theorem runSession_no_first_file (ops : List SessionOp) :
    ∀ s : AppState, 2 ≤ s.stats.filesProcessed →
      hasAchievement s "first_file" = false →
      (∀ op ∈ ops, replacesStats op = false) →
      hasAchievement (runSession s ops) "first_file" = false := by
  induction ops with
  | nil =>
    intro s _ hno _
    simpa [runSession] using hno
  | cons op rest ih =>
    intro s hfp hno hops
    have hop := hops op (by simp)
    have hrest : ∀ o ∈ rest, replacesStats o = false := fun o ho => hops o (by simp [ho])
    cases op with
    | check =>
      simp only [runSession]
      exact ih (checkAchievements s)
        (by simpa using hfp)
        (by rw [checkAchievements_first_file s (by omega)]; exact hno)
        hrest
    | operate k n =>
      simp only [runSession]
      refine ih _ ?_ ?_ hrest
      · rw [checkAchievements_stats, updateStats_filesProcessed]; omega
      · rw [checkAchievements_first_file _ (by rw [updateStats_filesProcessed]; omega)]
        simpa [hasAchievement] using hno
    | logout => simp [replacesStats] at hop
    | loadProfile user =>
      simp only [runSession]
      simp only [replacesStats] at hop
      have hstats : user.logged_in = true → user.stats = none := by
        intro hl
        cases hsome : user.stats with
        | none => rfl
        | some v => rw [hl, hsome] at hop; simp at hop
      refine ih (loadGoogleUser s user) ?_ ?_ hrest
      · cases hl : user.logged_in with
        | false => simpa [loadGoogleUser, hl] using hfp
        | true => simpa [loadGoogleUser, hl, hstats hl] using hfp
      · cases hl : user.logged_in with
        | false => simpa [loadGoogleUser, hl, hasAchievement] using hno
        | true => simpa [loadGoogleUser, hl, hstats hl, hasAchievement] using hno

/-- C10 counterexample: a session restored with `filesProcessed = 2` whose
first evaluation unlocks nothing — yet a later call does unlock `first_file`,
in two ways: after `logoutGoogle` resets the stats, one successful hide makes
`filesProcessed = 1` and the paired `checkAchievements` unlocks it; and with
no logout at all, a `loadGoogleUser` refresh that installs a fresh server
profile (`filesProcessed = 0`) followed by one successful hide unlocks it just
the same. -/
theorem C10_first_file_unlocked_later :
    2 ≤ restoredState.stats.filesProcessed ∧
    hasAchievement (checkAchievements restoredState) "first_file" = false ∧
    hasAchievement
      (runSession restoredState [.check, .logout, .operate .hide 100])
      "first_file" = true ∧
    (∀ op ∈ ([.check, .loadProfile ⟨true, true, some (⟨0, 0, 0⟩, [])⟩,
        .operate .hide 100] : List SessionOp), op ≠ .logout) ∧
    hasAchievement
      (runSession restoredState [.check, .loadProfile ⟨true, true, some (⟨0, 0, 0⟩, [])⟩,
        .operate .hide 100])
      "first_file" = true := by
  refine ⟨by decide, by decide, by decide, by decide, by decide⟩

/-- C10 amended: `checkAchievements` unlocks `first_file` only when
`filesProcessed` is exactly 1 at evaluation (or it was already unlocked), and
along any session suffix free of stats-replacing actions — `logoutGoogle`'s
reset and a `loadGoogleUser` refresh that installs a stored server profile —
a state with `filesProcessed ≥ 2` and `first_file` locked never unlocks it;
either stats-replacing action can lower `filesProcessed`, after which one
successful operation unlocks `first_file` after all. -/
theorem C10_amended_first_file (s t : AppState) (ops : List SessionOp)
    (hfp : 2 ≤ s.stats.filesProcessed)
    (hno : hasAchievement s "first_file" = false)
    (hops : ∀ op ∈ ops, replacesStats op = false) :
    hasAchievement (runSession s ops) "first_file" = false ∧
    (hasAchievement (checkAchievements t) "first_file" = true →
      hasAchievement t "first_file" = true ∨ t.stats.filesProcessed = 1) := by
  refine ⟨runSession_no_first_file ops s hfp hno hops, ?_⟩
  intro h
  rw [hasAchievement_checkAchievements, newAchievementsFor_first_file] at h
  simp only [Bool.or_eq_true, Bool.and_eq_true, beq_iff_eq, Bool.not_eq_true'] at h
  rcases h with h | ⟨h1, _⟩
  · exact Or.inl h
  · exact Or.inr h1

/-- C10 amended witness: a trace from the restored state with no
stats-replacing action — a bare evaluation, one successful extract, and a
logged-out `loadGoogleUser` refresh — keeps `first_file` locked. -/
theorem C10_amended_witness :
    2 ≤ restoredState.stats.filesProcessed ∧
    hasAchievement restoredState "first_file" = false ∧
    (∀ op ∈ ([.check, .operate .extract 0,
        .loadProfile ⟨false, false, none⟩] : List SessionOp), replacesStats op = false) ∧
    hasAchievement (runSession restoredState
        [.check, .operate .extract 0, .loadProfile ⟨false, false, none⟩])
      "first_file" = false :=
  ⟨by decide, by decide, by decide,
    (C10_amended_first_file restoredState demoState
      [.check, .operate .extract 0, .loadProfile ⟨false, false, none⟩]
      (by decide) (by decide) (by decide)).1⟩

end StegoPro
